import Mathlib

/-!
Verification development for the AI-Hair-Salon try-on orchestration layer.

The definitions below are shallow embeddings of the Python sources:
* `common/services/tryon_service.py` (session orchestrator `TryOnService`),
* `common/services/klingai_video_service.py` (`KlingAIVideoService`),
* `common/services/klingai_service.py` (`KlingAIService._poll_task_result`),
* `common/services/gemini_service.py` (ROI box computations).

Python dictionaries keyed by strings are embedded as association lists with
first-match lookup and replace-or-append insertion (Python dict semantics for
read and assignment).  Python truthiness of `Optional[str]` values (None and
the empty string are falsy) is embedded by `pyTruthy`.  `print` calls and the
best-effort database mirror (`_save_tryon_record`, wrapped in try/except in
the source) have no effect on the session tables and are not modelled.
-/

/-- First-match lookup, embedding Python `dict.get(k)` for string-keyed dicts. -/
def dictGet (d : List (String × String)) (k : String) : Option String :=
  match d with
  | [] => none
  | (k1, v1) :: rest => if k1 = k then some v1 else dictGet rest k

/-- Replace-or-append insertion, embedding Python `d[k] = v`. -/
def dictInsert (d : List (String × String)) (k v : String) : List (String × String) :=
  match d with
  | [] => [(k, v)]
  | (k1, v1) :: rest => if k1 = k then (k, v) :: rest else (k1, v1) :: dictInsert rest k v

/-- Python truthiness of an `Optional[str]`: `None` and `""` are falsy. -/
def pyTruthy : Option String → Bool
  | none => false
  | some s => !(s = "")

/-- Python `o or d` on an `Optional[str]`: the default replaces falsy values. -/
def pyOrDefault (o : Option String) (d : String) : String :=
  match o with
  | none => d
  | some s => if s = "" then d else s

@[simp] theorem dictGet_nil (k : String) : dictGet [] k = none := rfl

theorem dictGet_dictInsert_self (d : List (String × String)) (k v : String) :
    dictGet (dictInsert d k v) k = some v := by
  induction d with
  | nil => simp [dictInsert, dictGet]
  | cons hd tl ih =>
    obtain ⟨k1, v1⟩ := hd
    by_cases h : k1 = k
    · simp [dictInsert, dictGet, h]
    · simp [dictInsert, dictGet, h, ih]

theorem dictGet_dictInsert_ne (d : List (String × String)) (k v k2 : String)
    (h : k2 ≠ k) : dictGet (dictInsert d k v) k2 = dictGet d k2 := by
  have hk : ¬(k = k2) := fun hh => h hh.symm
  induction d with
  | nil => simp [dictInsert, dictGet, hk]
  | cons hd tl ih =>
    obtain ⟨k1, v1⟩ := hd
    by_cases h1 : k1 = k
    · subst h1
      simp [dictInsert, dictGet, hk]
    · simp only [dictInsert, if_neg h1, dictGet]
      by_cases h2 : k1 = k2
      · simp [h2]
      · simp [h2, ih]

/-- In-memory state of the session orchestrator: the success table
`_session_outputs`, the error table `_session_errors`, and the set of file
names present in the outputs directory (`self._outputs_dir`), listed by name. -/
structure TryOnState where
  sessionOutputs : List (String × String)
  sessionErrors : List (String × String)
  outputFiles : List String
deriving DecidableEq, Repr

/-- The JSON-like dictionary returned by `TryOnService.get_result`: a `status`
string plus optional `output` and `message` fields (an absent key and an
explicit `None` value are both embedded as `none`). -/
structure TryOnResult where
  status : String
  output : Option String
  message : Option String
deriving DecidableEq, Repr

/-- Embeds `TryOnService.get_result` (`common/services/tryon_service.py`,
lines 500-532).  Branch order as in the source: missing/empty `session_id`
first, then the error table (truthiness check on `dict.get`), then the success
table (membership check), then the filesystem fallback, which memoizes the
public path into the success table, else `{"status": "pending"}`.  Returns the
result dictionary together with the post-call state. -/
def TryOnService.get_result (st : TryOnState) (session_id : String) :
    TryOnResult × TryOnState :=
  if session_id = "" then
    ({ status := "error", output := none, message := some "session_id missing" }, st)
  else if pyTruthy (dictGet st.sessionErrors session_id) then
    ({ status := "error", output := none,
       message := dictGet st.sessionErrors session_id }, st)
  else
    match dictGet st.sessionOutputs session_id with
    | some out => ({ status := "ok", output := some out, message := none }, st)
    | none =>
      if st.outputFiles.contains (session_id ++ ".jpg") then
        ({ status := "ok",
           output := some ("/static/outputs/" ++ session_id ++ ".jpg"),
           message := none },
         { st with sessionOutputs := dictInsert st.sessionOutputs session_id ("/static/outputs/" ++ session_id ++ ".jpg") })
      else
        ({ status := "pending", output := none, message := none }, st)

/-- C1: if a (non-empty) error message is recorded for a (non-empty)
session_id in the in-memory error table, `get_result` returns the error
result with that message — for every state, hence regardless of any success
entry for the same session and of any output file on disk: the error table is
consulted before the success table and before the filesystem fallback.  (All
writers of the error table in the source record non-empty messages under
generated non-empty session ids, so the two hypotheses hold for every
recorded entry.) -/
theorem get_result_error_precedence (st : TryOnState) (session_id msg : String)
    (hid : session_id ≠ "") (hmsg : dictGet st.sessionErrors session_id = some msg)
    (hne : msg ≠ "") :
    (TryOnService.get_result st session_id).1 =
      { status := "error", output := none, message := some msg } := by
  unfold TryOnService.get_result
  rw [if_neg hid, hmsg]
  simp [pyTruthy, hne]

/-- Witness for C1: a state holding an error, a conflicting success entry and
a matching output file for session "tryon_3" still answers with the error. -/
theorem get_result_error_precedence_witness :
    (TryOnService.get_result
        ⟨[("tryon_3", "/static/outputs/gen_7.jpg")], [("tryon_3", "boom")],
          ["tryon_3.jpg"]⟩ "tryon_3").1 =
      { status := "error", output := none, message := some "boom" } :=
  get_result_error_precedence
    ⟨[("tryon_3", "/static/outputs/gen_7.jpg")], [("tryon_3", "boom")], ["tryon_3.jpg"]⟩
    "tryon_3" "boom" (by decide) (by decide) (by decide)

/-- C9: a non-empty session_id with no recorded error, no recorded success
output and no matching output file — including identifiers never issued by
any start call — answers `{"status": "pending"}` with the state unchanged,
while the empty session_id answers the `"session_id missing"` error: only an
empty/missing id yields an error response, so unknown and in-progress
sessions are indistinguishable to the caller. -/
theorem get_result_unknown_session_pending (st : TryOnState) (session_id : String)
    (hid : session_id ≠ "")
    (herr : dictGet st.sessionErrors session_id = none)
    (hout : dictGet st.sessionOutputs session_id = none)
    (hfile : st.outputFiles.contains (session_id ++ ".jpg") = false) :
    (TryOnService.get_result st session_id).1 =
      { status := "pending", output := none, message := none } ∧
    (TryOnService.get_result st session_id).2 = st ∧
    (TryOnService.get_result st "").1 =
      { status := "error", output := none, message := some "session_id missing" } := by
  unfold TryOnService.get_result
  rw [if_neg hid, herr, hout, hfile]
  simp [pyTruthy]

/-- Witness for C9: a never-issued id polls as pending in a state that holds
results of other sessions. -/
theorem get_result_unknown_session_pending_witness :
    (TryOnService.get_result
        ⟨[("tryon_1", "/static/outputs/gen_2.jpg")], [("tryon_4", "bad")],
          ["gen_2.jpg"]⟩ "tryon_777").1 =
      { status := "pending", output := none, message := none } :=
  (get_result_unknown_session_pending
    ⟨[("tryon_1", "/static/outputs/gen_2.jpg")], [("tryon_4", "bad")], ["gen_2.jpg"]⟩
    "tryon_777" (by decide) (by decide) (by decide) (by decide)).1

/-- Counterexample to C6: session "tryon_5" has been accepted and is not yet
terminal (its background job has written nothing, and no output file exists),
yet `get_result` answers with status "pending", not "processing". -/
theorem get_result_pending_not_processing :
    (TryOnService.get_result ⟨[], [], []⟩ "tryon_5").1.status = "pending" ∧
    (TryOnService.get_result ⟨[], [], []⟩ "tryon_5").1.status ≠ "processing" := by
  decide

/-- C6 amended: every `get_result` answer has status drawn from exactly
{"pending", "ok", "error"} (not {"processing", "ok", "error"}), and an
accepted, not-yet-terminal session (no table entry, no output file) answers
"pending".  The spelling "processing" appears only in the immediate response
of the start call, never in a poll answer. -/
theorem get_result_status_vocabulary (st : TryOnState) (session_id : String) :
    ((TryOnService.get_result st session_id).1.status = "pending" ∨
     (TryOnService.get_result st session_id).1.status = "ok" ∨
     (TryOnService.get_result st session_id).1.status = "error") ∧
    (session_id ≠ "" → dictGet st.sessionErrors session_id = none →
     dictGet st.sessionOutputs session_id = none →
     st.outputFiles.contains (session_id ++ ".jpg") = false →
     (TryOnService.get_result st session_id).1.status = "pending") := by
  constructor
  · unfold TryOnService.get_result
    rcases h : dictGet st.sessionOutputs session_id with _ | out <;>
      simp only [h] <;> split_ifs <;> simp
  · intro hid herr hout hfile
    unfold TryOnService.get_result
    rw [if_neg hid, herr, hout, hfile]
    simp [pyTruthy]

/-- Witness for C6 amended: the in-flight branch evaluated at an accepted
session with empty tables. -/
theorem get_result_status_vocabulary_witness :
    (TryOnService.get_result ⟨[], [], []⟩ "tryon_9").1.status = "pending" :=
  (get_result_status_vocabulary ⟨[], [], []⟩ "tryon_9").2
    (by decide) (by decide) (by decide) (by decide)

/-- Counterexample to C10: for session "tryon_9" no error is recorded and the
file "tryon_9.jpg" exists in the outputs directory, yet `get_result` does not
write the mapping to "/static/outputs/tryon_9.jpg": a previously recorded
success entry is returned instead and the state is left unchanged.  The
claim omits the condition that no success output is yet recorded. -/
theorem get_result_memoization_counterexample :
    (TryOnService.get_result
        ⟨[("tryon_9", "/static/outputs/gen_1.jpg")], [], ["tryon_9.jpg"]⟩ "tryon_9").1 =
      { status := "ok", output := some "/static/outputs/gen_1.jpg", message := none } ∧
    (TryOnService.get_result
        ⟨[("tryon_9", "/static/outputs/gen_1.jpg")], [], ["tryon_9.jpg"]⟩ "tryon_9").2 =
      ⟨[("tryon_9", "/static/outputs/gen_1.jpg")], [], ["tryon_9.jpg"]⟩ ∧
    dictGet (TryOnService.get_result
        ⟨[("tryon_9", "/static/outputs/gen_1.jpg")], [], ["tryon_9.jpg"]⟩ "tryon_9").2.sessionOutputs
        "tryon_9" ≠ some "/static/outputs/tryon_9.jpg" := by
  decide

/-- C10 amended: for a non-empty session_id with no recorded error, no
recorded success output, and a file "<session_id>.jpg" present in the outputs
directory, `get_result` writes session_id ↦ "/static/outputs/<session_id>.jpg"
into the in-memory success table before returning status "ok"; the error
table, the file list, and every other success-table entry are unchanged. -/
theorem get_result_memoizes_file_result (st : TryOnState) (session_id : String)
    (hid : session_id ≠ "")
    (herr : dictGet st.sessionErrors session_id = none)
    (hout : dictGet st.sessionOutputs session_id = none)
    (hfile : st.outputFiles.contains (session_id ++ ".jpg") = true) :
    (TryOnService.get_result st session_id).1 =
      { status := "ok", output := some ("/static/outputs/" ++ session_id ++ ".jpg"),
        message := none } ∧
    (TryOnService.get_result st session_id).2.sessionOutputs =
      dictInsert st.sessionOutputs session_id
        ("/static/outputs/" ++ session_id ++ ".jpg") ∧
    dictGet (TryOnService.get_result st session_id).2.sessionOutputs session_id =
      some ("/static/outputs/" ++ session_id ++ ".jpg") ∧
    (TryOnService.get_result st session_id).2.sessionErrors = st.sessionErrors ∧
    (TryOnService.get_result st session_id).2.outputFiles = st.outputFiles ∧
    ∀ sid2, sid2 ≠ session_id →
      dictGet (TryOnService.get_result st session_id).2.sessionOutputs sid2 =
        dictGet st.sessionOutputs sid2 := by
  unfold TryOnService.get_result
  rw [if_neg hid, herr, hout, hfile]
  refine ⟨by simp [pyTruthy], by simp [pyTruthy], ?_, by simp [pyTruthy],
    by simp [pyTruthy], ?_⟩
  · simp [pyTruthy, dictGet_dictInsert_self]
  · intro sid2 h2
    simp [pyTruthy, dictGet_dictInsert_ne _ _ _ _ h2]

/-- Witness for C10 amended: the file-backed session "tryon_8" is memoized
into the success table while the unrelated entry for "tryon_2" survives. -/
theorem get_result_memoizes_file_result_witness :
    (TryOnService.get_result
        ⟨[("tryon_2", "/static/outputs/gen_9.jpg")], [], ["tryon_8.jpg"]⟩ "tryon_8").1 =
      { status := "ok", output := some ("/static/outputs/" ++ "tryon_8" ++ ".jpg"),
        message := none } ∧
    dictGet (TryOnService.get_result
        ⟨[("tryon_2", "/static/outputs/gen_9.jpg")], [], ["tryon_8.jpg"]⟩ "tryon_8").2.sessionOutputs
        "tryon_8" = some ("/static/outputs/" ++ "tryon_8" ++ ".jpg") :=
  ⟨(get_result_memoizes_file_result
      ⟨[("tryon_2", "/static/outputs/gen_9.jpg")], [], ["tryon_8.jpg"]⟩ "tryon_8"
      (by decide) (by decide) (by decide) (by decide)).1,
   (get_result_memoizes_file_result
      ⟨[("tryon_2", "/static/outputs/gen_9.jpg")], [], ["tryon_8.jpg"]⟩ "tryon_8"
      (by decide) (by decide) (by decide) (by decide)).2.2.1⟩

/-- Round-half-even of the integer fraction `num / den` (`den > 0`), the tie
behaviour of Python `round`.  Embeds `int(round(f * dim))`: the float product
`f * dim` may differ from the exact fraction by an ulp, but the ROI bound
theorem below holds for every pre-clamp value, so the deviation is
immaterial. -/
def roundHalfEvenDiv (num den : ℤ) : ℤ :=
  let q := num / den
  let r := num % den
  if 2 * r < den then q
  else if den < 2 * r then q + 1
  else if q % 2 = 0 then q else q + 1

/-- Embeds `GeminiService._compute_lower_body_roi`
(`common/services/gemini_service.py`, lines 1517-1526): fractional box
(0.15 w, 0.45 h, 0.85 w, 0.92 h) rounded, then clamped. -/
def GeminiService.compute_lower_body_roi (w h : ℤ) : ℤ × ℤ × ℤ × ℤ :=
  let left0 := roundHalfEvenDiv (15 * w) 100
  let right0 := roundHalfEvenDiv (85 * w) 100
  let top0 := roundHalfEvenDiv (45 * h) 100
  let bottom0 := roundHalfEvenDiv (92 * h) 100
  let left := max 0 (min left0 (w - 1))
  let right := max (left + 1) (min right0 w)
  let top := max 0 (min top0 (h - 1))
  let bottom := max (top + 1) (min bottom0 h)
  (left, top, right, bottom)

/-- Embeds `GeminiService._compute_upper_body_roi`
(`common/services/gemini_service.py`, lines 1569-1578): fractional box
(0.1 w, 0.05 h, 0.9 w, 0.55 h) rounded, then clamped. -/
def GeminiService.compute_upper_body_roi (w h : ℤ) : ℤ × ℤ × ℤ × ℤ :=
  let left0 := roundHalfEvenDiv (10 * w) 100
  let right0 := roundHalfEvenDiv (90 * w) 100
  let top0 := roundHalfEvenDiv (5 * h) 100
  let bottom0 := roundHalfEvenDiv (55 * h) 100
  let left := max 0 (min left0 (w - 1))
  let right := max (left + 1) (min right0 w)
  let top := max 0 (min top0 (h - 1))
  let bottom := max (top + 1) (min bottom0 h)
  (left, top, right, bottom)

/-- The clamp pattern shared by both ROI computations keeps the box inside
the image with at least one pixel of extent, whatever the rounded values. -/
theorem roi_clamp_bounds (w h left0 right0 top0 bottom0 : ℤ)
    (hw : 1 ≤ w) (hh : 1 ≤ h) :
    0 ≤ max 0 (min left0 (w - 1)) ∧
    max 0 (min left0 (w - 1)) < max (max 0 (min left0 (w - 1)) + 1) (min right0 w) ∧
    max (max 0 (min left0 (w - 1)) + 1) (min right0 w) ≤ w ∧
    0 ≤ max 0 (min top0 (h - 1)) ∧
    max 0 (min top0 (h - 1)) < max (max 0 (min top0 (h - 1)) + 1) (min bottom0 h) ∧
    max (max 0 (min top0 (h - 1)) + 1) (min bottom0 h) ≤ h := by
  have hl1 : max 0 (min left0 (w - 1)) ≤ w - 1 :=
    max_le (by omega) (min_le_right _ _)
  have ht1 : max 0 (min top0 (h - 1)) ≤ h - 1 :=
    max_le (by omega) (min_le_right _ _)
  refine ⟨le_max_left _ _, ?_, ?_, le_max_left _ _, ?_, ?_⟩
  · exact lt_of_lt_of_le (by omega) (le_max_left _ _)
  · exact max_le (by omega) (min_le_right _ _)
  · exact lt_of_lt_of_le (by omega) (le_max_left _ _)
  · exact max_le (by omega) (min_le_right _ _)

/-- C7: for all integer image dimensions w ≥ 1 and h ≥ 1, both ROI box
computations return (left, top, right, bottom) with 0 ≤ left < right ≤ w and
0 ≤ top < bottom ≤ h: the clamped box lies within the image and is at least
one pixel wide and one pixel tall. -/
theorem roi_boxes_within_image (w h : ℤ) (hw : 1 ≤ w) (hh : 1 ≤ h) :
    (0 ≤ (GeminiService.compute_lower_body_roi w h).1 ∧
     (GeminiService.compute_lower_body_roi w h).1 <
       (GeminiService.compute_lower_body_roi w h).2.2.1 ∧
     (GeminiService.compute_lower_body_roi w h).2.2.1 ≤ w ∧
     0 ≤ (GeminiService.compute_lower_body_roi w h).2.1 ∧
     (GeminiService.compute_lower_body_roi w h).2.1 <
       (GeminiService.compute_lower_body_roi w h).2.2.2 ∧
     (GeminiService.compute_lower_body_roi w h).2.2.2 ≤ h) ∧
    (0 ≤ (GeminiService.compute_upper_body_roi w h).1 ∧
     (GeminiService.compute_upper_body_roi w h).1 <
       (GeminiService.compute_upper_body_roi w h).2.2.1 ∧
     (GeminiService.compute_upper_body_roi w h).2.2.1 ≤ w ∧
     0 ≤ (GeminiService.compute_upper_body_roi w h).2.1 ∧
     (GeminiService.compute_upper_body_roi w h).2.1 <
       (GeminiService.compute_upper_body_roi w h).2.2.2 ∧
     (GeminiService.compute_upper_body_roi w h).2.2.2 ≤ h) := by
  constructor
  · exact roi_clamp_bounds w h (roundHalfEvenDiv (15 * w) 100)
      (roundHalfEvenDiv (85 * w) 100) (roundHalfEvenDiv (45 * h) 100)
      (roundHalfEvenDiv (92 * h) 100) hw hh
  · exact roi_clamp_bounds w h (roundHalfEvenDiv (10 * w) 100)
      (roundHalfEvenDiv (90 * w) 100) (roundHalfEvenDiv (5 * h) 100)
      (roundHalfEvenDiv (55 * h) 100) hw hh

/-- Witness for C7: the bounds evaluated on a concrete 640 x 480 image. -/
theorem roi_boxes_within_image_witness :
    0 ≤ (GeminiService.compute_lower_body_roi 640 480).1 ∧
    (GeminiService.compute_lower_body_roi 640 480).1 <
      (GeminiService.compute_lower_body_roi 640 480).2.2.1 ∧
    (GeminiService.compute_lower_body_roi 640 480).2.2.1 ≤ 640 ∧
    0 ≤ (GeminiService.compute_upper_body_roi 640 480).2.1 ∧
    (GeminiService.compute_upper_body_roi 640 480).2.1 <
      (GeminiService.compute_upper_body_roi 640 480).2.2.2 ∧
    (GeminiService.compute_upper_body_roi 640 480).2.2.2 ≤ 480 :=
  ⟨(roi_boxes_within_image 640 480 (by norm_num) (by norm_num)).1.1,
   (roi_boxes_within_image 640 480 (by norm_num) (by norm_num)).1.2.1,
   (roi_boxes_within_image 640 480 (by norm_num) (by norm_num)).1.2.2.1,
   (roi_boxes_within_image 640 480 (by norm_num) (by norm_num)).2.2.2.2.1,
   (roi_boxes_within_image 640 480 (by norm_num) (by norm_num)).2.2.2.2.2.1,
   (roi_boxes_within_image 640 480 (by norm_num) (by norm_num)).2.2.2.2.2.2⟩

/-- Case-insensitive-free substring test over character lists (used to embed
Python `"turbo" in self.model.lower()`). -/
def listContainsSeq (pat l : List Char) : Bool :=
  l.tails.any (fun t => pat.isPrefixOf t)

/-- Embeds Python `pat in s` for strings. -/
def strContainsSeq (s pat : String) : Bool :=
  listContainsSeq pat.data s.data

/-- ASCII lower-casing of one character (the model names at stake are pure
ASCII, where Python `str.lower` is the ASCII map). -/
def charLower (c : Char) : Char :=
  if 'A' ≤ c ∧ c ≤ 'Z' then Char.ofNat (c.toNat + 32) else c

/-- Embeds Python `s.lower()` on ASCII strings. -/
def strLower (s : String) : String :=
  ⟨s.data.map charLower⟩

/-- The JSON payload `KlingAIVideoService.generate_video` would send to the
vendor endpoint `/v1/videos/image2video`: `mode = none` embeds the key being
omitted (turbo model variants). -/
structure VideoGenPayload where
  model_name : String
  image : String
  prompt : String
  duration : String
  mode : Option String
deriving DecidableEq, Repr

/-- Outcome of the phase of `KlingAIVideoService.generate_video` that runs
before any network traffic: either an early error return (no vendor call) or
the vendor call with the constructed payload. -/
inductive VideoGenPhase where
  | earlyError (message : String)
  | vendorCall (payload : VideoGenPayload)
deriving DecidableEq, Repr

/-- Embeds `KlingAIVideoService.generate_video`
(`common/services/klingai_video_service.py`, lines 238-323) up to the
`requests.post` call.  Inputs stand for the service/environment state read by
the guards: credentials configured, `requests` importable, source image
exists, base64 conversion result (`none` embeds `_image_to_base64` failing).
Per the source, the payload carries `str(duration)` verbatim and `mode` is
omitted exactly when the model name contains "turbo" (lower-cased); there is
no validation of `duration` anywhere before the network call. -/
def KlingAIVideoService.generate_video (keysConfigured : Bool)
    (requestsAvailable : Bool) (imageExists : Bool) (imageBase64 : Option String)
    (model mode prompt : String) (duration : Int) : VideoGenPhase :=
  if !keysConfigured then
    .earlyError "KlingAI Video API keys not configured"
  else if !requestsAvailable then
    .earlyError "HTTP library not available"
  else if !imageExists then
    .earlyError "Source image not found"
  else
    match imageBase64 with
    | none => .earlyError "Failed to process image"
    | some b64 =>
      .vendorCall
        { model_name := model, image := b64, prompt := prompt,
          duration := toString duration,
          mode := if strContainsSeq (strLower model) "turbo" then none else some mode }

/-- Counterexample to C5: with credentials configured, the HTTP library
available and a readable source image, a request with duration 7 (outside the
vendor set {5, 10}) is not rejected: `generate_video` reaches the vendor call
with `"duration": "7"` in the payload. -/
theorem generate_video_duration_not_validated :
    KlingAIVideoService.generate_video true true true (some "IMGB64")
        "kling-v1" "std" "spin around" 7 =
      .vendorCall
        { model_name := "kling-v1", image := "IMGB64", prompt := "spin around",
          duration := "7", mode := some "std" } := by
  decide

/-- C5 amended: `generate_video` performs no duration validation at all —
for every duration value, once the credential/library/image guards pass, the
vendor is called with `str(duration)` embedded verbatim in the payload
(rejection of unsupported durations is left to the vendor); the HTTP route
`generate_video` in `routes/api.py` forwards `payload.get("duration", 5)`
without a check either. -/
theorem generate_video_forwards_any_duration (b64 model mode prompt : String)
    (duration : Int) :
    KlingAIVideoService.generate_video true true true (some b64)
        model mode prompt duration =
      .vendorCall
        { model_name := model, image := b64, prompt := prompt,
          duration := toString duration,
          mode := if strContainsSeq (strLower model) "turbo" then none
                  else some mode } := by
  rfl

/-- A single video entry of the vendor poll response (`task_result.videos`). -/
structure VideoItem where
  url : Option String
deriving DecidableEq, Repr

/-- The `data` object of the vendor's polling response for
`/v1/videos/image2video/<task_id>`. -/
structure VideoPollData where
  task_status : String
  videos : List VideoItem
  task_status_msg : Option String
deriving DecidableEq, Repr

/-- The dictionary returned by `KlingAIVideoService.poll_video_task`. -/
structure VideoPollResult where
  status : String
  output_path : Option String
  message : Option String
deriving DecidableEq, Repr

/-- Embeds `KlingAIVideoService.poll_video_task`
(`common/services/klingai_video_service.py`, lines 367-456).  `keysConfigured`
and `httpOk` stand for the credential guard and the HTTP status of the poll
request (`httpErrMsg` is the message extracted from a non-200 response);
`data` is the parsed `data` object; `nowMs` is `int(time.time()*1000)` at the
download, and `downloadStatus` the HTTP status of the `requests.get` on the
video URL.  The download happens only when `videos[0].get("url")` is truthy
(`if video_url:` in the source — a missing or empty url string falls through
to the "No video URL in response" error).  The second component lists the
files persisted by this call — the source persists on every poll that
observes success with a truthy url, keeping no record of already-completed
tasks. -/
def KlingAIVideoService.poll_video_task (keysConfigured httpOk : Bool)
    (httpErrMsg : String) (data : VideoPollData) (nowMs : Nat)
    (downloadStatus : Nat) : VideoPollResult × List String :=
  if !keysConfigured then
    ({ status := "error", output_path := none,
       message := some "API keys not configured" }, [])
  else if !httpOk then
    ({ status := "error", output_path := none, message := some httpErrMsg }, [])
  else if data.task_status = "succeed" ∨ data.task_status = "success" then
    match data.videos with
    | v :: _ =>
      if pyTruthy v.url then
        let output_filename := "video_" ++ Nat.repr nowMs ++ ".mp4"
        if downloadStatus = 200 then
          ({ status := "completed",
             output_path := some ("/static/outputs/" ++ output_filename),
             message := none }, [output_filename])
        else
          ({ status := "error", output_path := none,
             message := some ("Failed to download video: HTTP " ++
               Nat.repr downloadStatus) }, [])
      else
        ({ status := "error", output_path := none,
           message := some "No video URL in response" }, [])
    | [] =>
      ({ status := "error", output_path := none,
         message := some "No video URL in response" }, [])
  else if data.task_status = "failed" ∨ data.task_status = "error" then
    ({ status := "failed", output_path := none,
       message := some (pyOrDefault data.task_status_msg
         "Video generation failed") }, [])
  else if data.task_status = "processing" ∨ data.task_status = "submitted" ∨
      data.task_status = "pending" then
    ({ status := "processing", output_path := none,
       message := some "Video is being generated..." }, [])
  else
    ({ status := "unknown", output_path := none,
       message := some ("Unknown status: " ++ data.task_status) }, [])

/-- Embeds the per-response status classification of
`KlingAIService._poll_task_result` (`common/services/klingai_service.py`,
lines 503-520): "completed"/"succeed"/"success" end the loop with the result
(done), "failed"/"error" end it with `None` (failed), anything else keeps
polling (still processing). -/
def KlingAIService.poll_status_classify (task_status : String) : String :=
  if task_status = "completed" ∨ task_status = "succeed" ∨
      task_status = "success" then "done"
  else if task_status = "failed" ∨ task_status = "error" then "failed"
  else "processing"

/-- Counterexample to C3: the video poller does not classify the vendor
spelling "completed" as done — `poll_video_task` falls through to the
"unknown" branch for it (while the image try-on poller does treat "completed"
as done, see `poll_task_classification`). -/
theorem video_poll_completed_not_done :
    (KlingAIVideoService.poll_video_task true true "poll error"
        ⟨"completed", [⟨some "https://cdn/v.mp4"⟩], none⟩ 1000 200).1.status =
      "unknown" ∧
    ("unknown" : String) ≠ "completed" := by
  decide

/-- C3 amended: the image try-on poller classifies each of "succeed",
"success" and "completed" as done, "processing"/"submitted"/"pending" as
still processing, and "failed"/"error" as failed; the video poller classifies
only "succeed" and "success" as done (returning the completed result),
"processing"/"submitted"/"pending" as processing and "failed"/"error" as
failed, while "completed" lands in the unknown branch. -/
theorem poll_task_classification :
    KlingAIService.poll_status_classify "succeed" = "done" ∧
    KlingAIService.poll_status_classify "success" = "done" ∧
    KlingAIService.poll_status_classify "completed" = "done" ∧
    KlingAIService.poll_status_classify "processing" = "processing" ∧
    KlingAIService.poll_status_classify "submitted" = "processing" ∧
    KlingAIService.poll_status_classify "pending" = "processing" ∧
    KlingAIService.poll_status_classify "failed" = "failed" ∧
    KlingAIService.poll_status_classify "error" = "failed" ∧
    (KlingAIVideoService.poll_video_task true true "poll error"
        ⟨"succeed", [⟨some "u"⟩], none⟩ 5 200).1.status = "completed" ∧
    (KlingAIVideoService.poll_video_task true true "poll error"
        ⟨"success", [⟨some "u"⟩], none⟩ 5 200).1.status = "completed" ∧
    (KlingAIVideoService.poll_video_task true true "poll error"
        ⟨"processing", [⟨some "u"⟩], none⟩ 5 200).1.status = "processing" ∧
    (KlingAIVideoService.poll_video_task true true "poll error"
        ⟨"submitted", [⟨some "u"⟩], none⟩ 5 200).1.status = "processing" ∧
    (KlingAIVideoService.poll_video_task true true "poll error"
        ⟨"pending", [⟨some "u"⟩], none⟩ 5 200).1.status = "processing" ∧
    (KlingAIVideoService.poll_video_task true true "poll error"
        ⟨"failed", [⟨some "u"⟩], none⟩ 5 200).1.status = "failed" ∧
    (KlingAIVideoService.poll_video_task true true "poll error"
        ⟨"error", [⟨some "u"⟩], none⟩ 5 200).1.status = "failed" ∧
    (KlingAIVideoService.poll_video_task true true "poll error"
        ⟨"completed", [⟨some "u"⟩], none⟩ 5 200).1.status = "unknown" := by
  decide

/-- Counterexample to C4: a video task whose vendor response reports success
is downloaded and persisted by the first poll (file "video_1000.mp4"), and
polling the same completed task again downloads and persists the payload a
second time under a fresh name ("video_2000.mp4") — the service keeps no
record of completed tasks, so persistence is not exactly-once. -/
theorem poll_video_task_redownloads :
    (KlingAIVideoService.poll_video_task true true "poll error"
        ⟨"succeed", [⟨some "https://cdn/v.mp4"⟩], none⟩ 1000 200).2 =
      ["video_1000.mp4"] ∧
    (KlingAIVideoService.poll_video_task true true "poll error"
        ⟨"succeed", [⟨some "https://cdn/v.mp4"⟩], none⟩ 2000 200).2 =
      ["video_2000.mp4"] := by
  decide

/-- C4 amended: every poll of `poll_video_task` that observes a success
response with a truthy (non-empty) video URL (and whose download succeeds)
downloads the payload and persists it under a fresh millisecond-timestamped
name, returning the completed result; nothing records that a task was already
persisted, so a repeated poll after completion downloads and persists again
rather than returning the already-persisted result. -/
theorem poll_video_task_persists_every_success (httpErrMsg : String)
    (data : VideoPollData) (nowMs : Nat) (v : VideoItem) (rest : List VideoItem)
    (u : String)
    (hstatus : data.task_status = "succeed" ∨ data.task_status = "success")
    (hvideos : data.videos = v :: rest) (hurl : v.url = some u)
    (hne : u ≠ "") :
    KlingAIVideoService.poll_video_task true true httpErrMsg data nowMs 200 =
      ({ status := "completed",
         output_path := some ("/static/outputs/" ++
           ("video_" ++ Nat.repr nowMs ++ ".mp4")),
         message := none }, ["video_" ++ Nat.repr nowMs ++ ".mp4"]) := by
  unfold KlingAIVideoService.poll_video_task
  rw [if_pos hstatus, hvideos]
  simp [pyTruthy, hurl, hne]

/-- Witness for C4 amended: the success response polled at millisecond 777
persists "video_777.mp4". -/
theorem poll_video_task_persists_every_success_witness :
    KlingAIVideoService.poll_video_task true true "poll error"
        ⟨"success", [⟨some "https://cdn/v.mp4"⟩], none⟩ 777 200 =
      ({ status := "completed",
         output_path := some ("/static/outputs/" ++
           ("video_" ++ Nat.repr 777 ++ ".mp4")),
         message := none }, ["video_" ++ Nat.repr 777 ++ ".mp4"]) :=
  poll_video_task_persists_every_success "poll error"
    ⟨"success", [⟨some "https://cdn/v.mp4"⟩], none⟩ 777
    ⟨some "https://cdn/v.mp4"⟩ [] "https://cdn/v.mp4"
    (by decide) rfl rfl (by decide)

/-- Decimal digit characters of `n`, most significant first: the reference
shape of the character list produced by `Nat.toDigitsCore`. -/
def natDigits (n : Nat) : List Char :=
  if h : n < 10 then [Nat.digitChar n]
  else natDigits (n / 10) ++ [Nat.digitChar (n % 10)]
decreasing_by exact Nat.div_lt_self (by omega) (by omega)

theorem toDigitsCore_eq_natDigits (f : Nat) :
    ∀ (n : Nat) (acc : List Char), n < f →
      Nat.toDigitsCore 10 f n acc = natDigits n ++ acc := by
  induction f with
  | zero => intro n acc h; omega
  | succ f ih =>
    intro n acc h
    rw [Nat.toDigitsCore]
    by_cases h10 : n / 10 = 0
    · have hn : n < 10 := by
        rcases Nat.lt_or_ge n 10 with h1 | h1
        · exact h1
        · exact absurd h10 (by
            have : 1 ≤ n / 10 := Nat.le_div_iff_mul_le (by omega) |>.2 (by omega)
            omega)
      rw [if_pos h10, natDigits, dif_pos hn, Nat.mod_eq_of_lt hn]
      rfl
    · have hn : ¬n < 10 := by
        intro h1
        exact h10 (Nat.div_eq_of_lt h1)
      rw [if_neg h10]
      rw [ih (n / 10) _ (by
        have h1 : n / 10 < n := Nat.div_lt_self (by omega) (by omega)
        omega)]
      conv_rhs => rw [natDigits]
      rw [dif_neg hn, List.append_assoc]
      rfl

/-- Numeric value of a decimal digit character. -/
def digitVal (c : Char) : Nat := c.toNat - 48

/-- Reads a most-significant-first decimal digit string back into a number. -/
def parseDigits (l : List Char) : Nat :=
  l.foldl (fun a c => 10 * a + digitVal c) 0

theorem digitVal_digitChar : ∀ d, d < 10 → digitVal (Nat.digitChar d) = d := by
  decide

theorem parseDigits_natDigits (n : Nat) : parseDigits (natDigits n) = n := by
  induction n using Nat.strong_induction_on with
  | _ n ih =>
    by_cases h : n < 10
    · rw [natDigits, dif_pos h]
      simp [parseDigits, digitVal_digitChar n h]
    · rw [natDigits, dif_neg h]
      have hfold : parseDigits (natDigits (n / 10) ++ [Nat.digitChar (n % 10)]) =
          10 * parseDigits (natDigits (n / 10)) + digitVal (Nat.digitChar (n % 10)) := by
        rw [parseDigits, List.foldl_append]
        rfl
      rw [hfold, ih (n / 10) (Nat.div_lt_self (by omega) (by omega)),
        digitVal_digitChar _ (Nat.mod_lt n (by omega))]
      omega

theorem natRepr_eq_natDigits (n : Nat) : Nat.repr n = (natDigits n).asString := by
  show (Nat.toDigits 10 n).asString = (natDigits n).asString
  rw [Nat.toDigits, toDigitsCore_eq_natDigits (n + 1) n [] (Nat.lt_succ_self n),
    List.append_nil]

theorem natRepr_injective {m n : Nat} (h : Nat.repr m = Nat.repr n) : m = n := by
  rw [natRepr_eq_natDigits, natRepr_eq_natDigits] at h
  have hd : natDigits m = natDigits n := congrArg String.data h
  calc m = parseDigits (natDigits m) := (parseDigits_natDigits m).symm
    _ = parseDigits (natDigits n) := by rw [hd]
    _ = n := parseDigits_natDigits n

/-- Embeds the session-id generation of `TryOnService.start_tryon`
(`common/services/tryon_service.py`, line 230, also lines 542 and 707):
`session_id = f"tryon_{int(time.time()*1000)}"`.  The identifier is a pure
function of the wall-clock millisecond; `requestIndex` names which accepted
request is asking and demonstrably does not influence the result. -/
def TryOnService.session_id_for_request (requestIndex nowMs : Nat) : String :=
  "tryon_" ++ Nat.repr nowMs

/-- Counterexample to C8: two distinct accepted requests (indices 0 and 1)
arriving within the same wall-clock millisecond receive the same session
identifier — time-based generation does not guarantee uniqueness within the
process lifetime. -/
theorem session_id_collision :
    (0 : Nat) ≠ 1 ∧
    TryOnService.session_id_for_request 0 1717000000123 =
      TryOnService.session_id_for_request 1 1717000000123 := by
  constructor
  · decide
  · rfl

/-- C8 amended: session identifiers are distinct exactly as far as the
millisecond clock distinguishes the requests — any two requests whose
`int(time.time()*1000)` readings differ receive distinct identifiers (the
decimal timestamp embeds injectively into the id), while requests sharing a
millisecond collide. -/
theorem session_ids_distinct_across_milliseconds (i j t1 t2 : Nat)
    (h : t1 ≠ t2) :
    TryOnService.session_id_for_request i t1 ≠
      TryOnService.session_id_for_request j t2 := by
  intro he
  apply h
  apply natRepr_injective
  have hd := congrArg String.data he
  rw [TryOnService.session_id_for_request, TryOnService.session_id_for_request,
    String.data_append, String.data_append] at hd
  exact String.ext (List.append_cancel_left hd)

/-- Witness for C8 amended: requests one millisecond apart get distinct ids. -/
theorem session_ids_distinct_across_milliseconds_witness :
    TryOnService.session_id_for_request 0 1717000000123 ≠
      TryOnService.session_id_for_request 1 1717000000124 :=
  session_ids_distinct_across_milliseconds 0 1 1717000000123 1717000000124
    (by decide)

/-- One operation of the orchestration system on the shared per-session
state.  `bgOk`/`bgError` are the single terminal table write a unit of work
performs for its session (success branch or error/exception branch of
`_bg_job`, `_bg_job_klingai`, `_bg_job_advanced`, `_bg_job_two_phase`, or the
synchronous failure writes of the start methods).  The file steps are the
writers of the outputs directory in the sources, with their exact name
shapes: `gen_<ms>.jpg` (gemini_service.py lines 164/318/638/927,
klingai_service.py line 257), `garment_letterbox_<ms>.jpg` (gemini_service.py
line 2065), `comparison_<hex>.jpg` (services/photo_service.py line 114) and
`video_<ms>.mp4` (klingai_video_service.py line 416).  `poll` is a
`get_result` call, including its memoization effect. -/
inductive Step where
  | bgOk (session_id output : String)
  | bgError (session_id message : String)
  | fileGen (ms : Nat)
  | fileLetterbox (ms : Nat)
  | fileComparison (tag : String)
  | fileVideo (ms : Nat)
  | poll (session_id : String)
deriving DecidableEq, Repr

/-- Effect of one step on the orchestrator state. -/
def applyStep (st : TryOnState) : Step → TryOnState
  | .bgOk sid out =>
    { st with sessionOutputs := dictInsert st.sessionOutputs sid out }
  | .bgError sid msg =>
    { st with sessionErrors := dictInsert st.sessionErrors sid msg }
  | .fileGen ms =>
    { st with outputFiles := ("gen_" ++ Nat.repr ms ++ ".jpg") :: st.outputFiles }
  | .fileLetterbox ms =>
    { st with outputFiles :=
        ("garment_letterbox_" ++ Nat.repr ms ++ ".jpg") :: st.outputFiles }
  | .fileComparison tag =>
    { st with outputFiles := ("comparison_" ++ tag ++ ".jpg") :: st.outputFiles }
  | .fileVideo ms =>
    { st with outputFiles := ("video_" ++ Nat.repr ms ++ ".mp4") :: st.outputFiles }
  | .poll sid => (TryOnService.get_result st sid).2

def applyTrace (st : TryOnState) (tr : List Step) : TryOnState :=
  tr.foldl applyStep st

/-- A fresh process: empty tables, empty outputs directory. -/
def initState : TryOnState := ⟨[], [], []⟩

def runTrace (tr : List Step) : TryOnState := applyTrace initState tr

/-- The session a step's terminal table write targets, if any. -/
def Step.bgTarget : Step → Option String
  | .bgOk sid _ => some sid
  | .bgError sid _ => some sid
  | _ => none

def bgWriteCount (sid : String) (tr : List Step) : Nat :=
  (tr.filter (fun e => e.bgTarget == some sid)).length

/-- Each session receives at most one terminal table write over the whole
run.  This holds whenever no two accepted requests share a session id (each
unit of work writes its terminal entry once); under a same-millisecond
collision (`session_id_collision`) it can fail. -/
def oneTerminalWritePerSession (tr : List Step) : Prop :=
  ∀ sid, bgWriteCount sid tr ≤ 1

/-- The file-name shapes the system's own writers produce in the outputs
directory. -/
def systemFileName (f : String) : Prop :=
  (∃ ms, f = "gen_" ++ Nat.repr ms ++ ".jpg") ∨
  (∃ ms, f = "garment_letterbox_" ++ Nat.repr ms ++ ".jpg") ∨
  (∃ tag, f = "comparison_" ++ tag ++ ".jpg") ∨
  (∃ ms, f = "video_" ++ Nat.repr ms ++ ".mp4")

def FilesOK (st : TryOnState) : Prop :=
  ∀ f ∈ st.outputFiles, systemFileName f

theorem str_append_assoc (a b c : String) : (a ++ b) ++ c = a ++ (b ++ c) := by
  apply String.ext
  simp [String.data_append, List.append_assoc]

theorem append_head_ne (p q a b : String) (c d : Char) (tp tq : List Char)
    (hp : p.data = c :: tp) (hq : q.data = d :: tq) (hcd : c ≠ d) :
    p ++ a ≠ q ++ b := by
  intro h
  have h2 := congrArg String.data h
  rw [String.data_append, String.data_append, hp, hq] at h2
  simp only [List.cons_append, List.cons.injEq] at h2
  exact hcd h2.1

/-- No name the system's writers produce matches the `<session_id>.jpg`
shape that `get_result`'s filesystem fallback looks for. -/
theorem systemFileName_ne_session_jpg (f : String) (hf : systemFileName f)
    (m : Nat) : f ≠ "tryon_" ++ Nat.repr m ++ ".jpg" := by
  rcases hf with ⟨ms, h⟩ | ⟨ms, h⟩ | ⟨tag, h⟩ | ⟨ms, h⟩ <;> subst h <;>
    rw [str_append_assoc, str_append_assoc]
  · exact append_head_ne _ _ _ _ 'g' 't' _ _ rfl rfl (by decide)
  · exact append_head_ne _ _ _ _ 'g' 't' _ _ rfl rfl (by decide)
  · exact append_head_ne _ _ _ _ 'c' 't' _ _ rfl rfl (by decide)
  · exact append_head_ne _ _ _ _ 'v' 't' _ _ rfl rfl (by decide)

theorem tryon_session_id_ne_empty (m : Nat) : ("tryon_" ++ Nat.repr m) ≠ "" := by
  intro h
  have h2 := congrArg String.data h
  rw [String.data_append] at h2
  simp at h2

theorem filesOK_no_session_file (st : TryOnState) (hf : FilesOK st) (m : Nat) :
    st.outputFiles.contains (("tryon_" ++ Nat.repr m) ++ ".jpg") = false := by
  by_contra h
  simp only [Bool.not_eq_false] at h
  have hmem : (("tryon_" ++ Nat.repr m) ++ ".jpg") ∈ st.outputFiles :=
    List.elem_iff.1 h
  exact systemFileName_ne_session_jpg _ (hf _ hmem) m (by rw [str_append_assoc])

/-- The state component of a `get_result` call: errors and files are always
untouched; the success table is either untouched or extended by the
memoization of an existing `<session_id>.jpg` file. -/
theorem get_result_snd_cases (st : TryOnState) (s : String) :
    (TryOnService.get_result st s).2.sessionErrors = st.sessionErrors ∧
    (TryOnService.get_result st s).2.outputFiles = st.outputFiles ∧
    ((TryOnService.get_result st s).2.sessionOutputs = st.sessionOutputs ∨
     ((TryOnService.get_result st s).2.sessionOutputs =
        dictInsert st.sessionOutputs s ("/static/outputs/" ++ s ++ ".jpg") ∧
      st.outputFiles.contains (s ++ ".jpg") = true)) := by
  unfold TryOnService.get_result
  rcases h : dictGet st.sessionOutputs s with _ | out
  · simp only [h]
    split_ifs with h1 h2 h3
    · exact ⟨rfl, rfl, Or.inl rfl⟩
    · exact ⟨rfl, rfl, Or.inl rfl⟩
    · exact ⟨rfl, rfl, Or.inr ⟨rfl, h3⟩⟩
    · exact ⟨rfl, rfl, Or.inl rfl⟩
  · simp only [h]
    split_ifs <;> exact ⟨rfl, rfl, Or.inl rfl⟩

/-- The answer of `get_result` depends only on the session id, the two table
lookups at that id, and the presence of `<session_id>.jpg`. -/
theorem get_result_fst_congr (st1 st2 : TryOnState) (s : String)
    (he : dictGet st1.sessionErrors s = dictGet st2.sessionErrors s)
    (ho : dictGet st1.sessionOutputs s = dictGet st2.sessionOutputs s)
    (hf : st1.outputFiles.contains (s ++ ".jpg") =
      st2.outputFiles.contains (s ++ ".jpg")) :
    (TryOnService.get_result st1 s).1 = (TryOnService.get_result st2 s).1 := by
  unfold TryOnService.get_result
  rw [he, ho, hf]
  rcases h : dictGet st2.sessionOutputs s with _ | out <;> simp only [h] <;>
    split_ifs <;> rfl

theorem filesOK_applyStep (st : TryOnState) (e : Step) (h : FilesOK st) :
    FilesOK (applyStep st e) := by
  cases e with
  | bgOk sid out => exact h
  | bgError sid msg => exact h
  | fileGen ms =>
    intro f hm
    rcases List.mem_cons.1 hm with h1 | h1
    · exact Or.inl ⟨ms, h1⟩
    · exact h f h1
  | fileLetterbox ms =>
    intro f hm
    rcases List.mem_cons.1 hm with h1 | h1
    · exact Or.inr (Or.inl ⟨ms, h1⟩)
    · exact h f h1
  | fileComparison tag =>
    intro f hm
    rcases List.mem_cons.1 hm with h1 | h1
    · exact Or.inr (Or.inr (Or.inl ⟨tag, h1⟩))
    · exact h f h1
  | fileVideo ms =>
    intro f hm
    rcases List.mem_cons.1 hm with h1 | h1
    · exact Or.inr (Or.inr (Or.inr ⟨ms, h1⟩))
    · exact h f h1
  | poll s =>
    intro f hm
    rw [show (applyStep st (Step.poll s)).outputFiles = st.outputFiles from
      (get_result_snd_cases st s).2.1] at hm
    exact h f hm

theorem filesOK_applyTrace (tr : List Step) (st : TryOnState) (h : FilesOK st) :
    FilesOK (applyTrace st tr) := by
  induction tr generalizing st with
  | nil => exact h
  | cons e tl ih => exact ih (applyStep st e) (filesOK_applyStep st e h)

theorem filesOK_initState : FilesOK initState :=
  fun f hf => absurd hf (List.not_mem_nil f)

/-- Steps that perform no terminal write for session `tryon_<m>` leave both
of its table entries unchanged (and keep the outputs directory free of
session-named files): bg writes for other sessions land under other keys,
file writers only add system-shaped names, and a poll memoizes only when a
session-named file exists, which `FilesOK` rules out. -/
theorem applyTrace_preserves_session (tr : List Step) (st : TryOnState)
    (m : Nat) (hfiles : FilesOK st)
    (hnobg : ∀ e ∈ tr, e.bgTarget ≠ some ("tryon_" ++ Nat.repr m)) :
    dictGet (applyTrace st tr).sessionErrors ("tryon_" ++ Nat.repr m) =
      dictGet st.sessionErrors ("tryon_" ++ Nat.repr m) ∧
    dictGet (applyTrace st tr).sessionOutputs ("tryon_" ++ Nat.repr m) =
      dictGet st.sessionOutputs ("tryon_" ++ Nat.repr m) ∧
    FilesOK (applyTrace st tr) := by
  induction tr generalizing st with
  | nil => exact ⟨rfl, rfl, hfiles⟩
  | cons e tl ih =>
    have hnobg_e : e.bgTarget ≠ some ("tryon_" ++ Nat.repr m) :=
      hnobg e (List.mem_cons_self e tl)
    have hnobg_tl : ∀ e2 ∈ tl, e2.bgTarget ≠ some ("tryon_" ++ Nat.repr m) :=
      fun e2 h2 => hnobg e2 (List.mem_cons_of_mem e h2)
    have hstep :
        dictGet (applyStep st e).sessionErrors ("tryon_" ++ Nat.repr m) =
          dictGet st.sessionErrors ("tryon_" ++ Nat.repr m) ∧
        dictGet (applyStep st e).sessionOutputs ("tryon_" ++ Nat.repr m) =
          dictGet st.sessionOutputs ("tryon_" ++ Nat.repr m) ∧
        FilesOK (applyStep st e) := by
      cases e with
      | bgOk s2 out =>
        have hne : ("tryon_" ++ Nat.repr m) ≠ s2 := by
          intro hh
          exact hnobg_e (by simp [Step.bgTarget, hh])
        exact ⟨rfl, dictGet_dictInsert_ne _ _ _ _ hne, hfiles⟩
      | bgError s2 msg =>
        have hne : ("tryon_" ++ Nat.repr m) ≠ s2 := by
          intro hh
          exact hnobg_e (by simp [Step.bgTarget, hh])
        exact ⟨dictGet_dictInsert_ne _ _ _ _ hne, rfl, hfiles⟩
      | fileGen ms => exact ⟨rfl, rfl, filesOK_applyStep st _ hfiles⟩
      | fileLetterbox ms => exact ⟨rfl, rfl, filesOK_applyStep st _ hfiles⟩
      | fileComparison tag => exact ⟨rfl, rfl, filesOK_applyStep st _ hfiles⟩
      | fileVideo ms => exact ⟨rfl, rfl, filesOK_applyStep st _ hfiles⟩
      | poll s2 =>
        obtain ⟨he, hfz, ho⟩ := get_result_snd_cases st s2
        refine ⟨by rw [show (applyStep st (Step.poll s2)).sessionErrors =
          (TryOnService.get_result st s2).2.sessionErrors from rfl, he], ?_,
          filesOK_applyStep st _ hfiles⟩
        rcases ho with h | ⟨h, hc⟩
        · rw [show (applyStep st (Step.poll s2)).sessionOutputs =
            (TryOnService.get_result st s2).2.sessionOutputs from rfl, h]
        · by_cases hss : s2 = "tryon_" ++ Nat.repr m
          · subst hss
            exact absurd hc (by rw [filesOK_no_session_file st hfiles m]; decide)
          · rw [show (applyStep st (Step.poll s2)).sessionOutputs =
              (TryOnService.get_result st s2).2.sessionOutputs from rfl, h]
            exact dictGet_dictInsert_ne _ _ _ _ (fun hh => hss hh.symm)
    obtain ⟨ih1, ih2, ih3⟩ := ih (applyStep st e) hstep.2.2 hnobg_tl
    exact ⟨ih1.trans hstep.1, ih2.trans hstep.2.1, ih3⟩

/-- A table entry for session `tryon_<m>` can only have been produced by a
terminal write targeting that session: file writers never create a
`tryon_<m>.jpg`, so a poll cannot memoize one. -/
theorem entries_imply_bgwrite (tr : List Step) (m : Nat)
    (h : dictGet (runTrace tr).sessionErrors ("tryon_" ++ Nat.repr m) ≠ none ∨
         dictGet (runTrace tr).sessionOutputs ("tryon_" ++ Nat.repr m) ≠ none) :
    ∃ e ∈ tr, e.bgTarget = some ("tryon_" ++ Nat.repr m) := by
  by_contra hno
  push_neg at hno
  obtain ⟨h1, h2, _⟩ :=
    applyTrace_preserves_session tr initState m filesOK_initState hno
  rcases h with h | h
  · exact h h1
  · exact h h2

theorem bgWriteCount_append (sid : String) (t1 t2 : List Step) :
    bgWriteCount sid (t1 ++ t2) = bgWriteCount sid t1 + bgWriteCount sid t2 := by
  simp [bgWriteCount, List.filter_append]

theorem bgWriteCount_pos_of_mem (sid : String) (tr : List Step) (e : Step)
    (he : e ∈ tr) (ht : e.bgTarget = some sid) : 1 ≤ bgWriteCount sid tr := by
  have hm : e ∈ tr.filter (fun e2 => e2.bgTarget == some sid) :=
    List.mem_filter.2 ⟨he, by simp [ht]⟩
  have hp : 0 < (tr.filter (fun e2 => e2.bgTarget == some sid)).length :=
    List.length_pos.2 (List.ne_nil_of_mem hm)
  simp only [bgWriteCount]
  omega

theorem no_bg_in_suffix (sid : String) (t2 : List Step)
    (h : bgWriteCount sid t2 = 0) : ∀ e ∈ t2, e.bgTarget ≠ some sid := by
  intro e he het
  rw [bgWriteCount, List.length_eq_zero] at h
  have : e ∈ t2.filter (fun e2 => e2.bgTarget == some sid) :=
    List.mem_filter.2 ⟨he, by simp [het]⟩
  rw [h] at this
  exact List.not_mem_nil e this

/-- Counterexample to C2: after the background unit of work of session
"tryon_5" recorded a success and `get_result` returned the terminal "ok"
result, a second terminal write for the same session id (reachable when two
requests collide on the same millisecond, `session_id_collision`, so each
spawns its own unit of work for the same id) flips the answer to "error":
the session does not stay in its first terminal state. -/
theorem terminal_result_replaced_after_collision :
    (TryOnService.get_result
        (runTrace [Step.bgOk "tryon_5" "/static/outputs/gen_1.jpg"])
        "tryon_5").1.status = "ok" ∧
    (TryOnService.get_result
        (runTrace [Step.bgOk "tryon_5" "/static/outputs/gen_1.jpg",
          Step.bgError "tryon_5" "KlingAI API error: 500"])
        "tryon_5").1.status = "error" ∧
    ("ok" : String) ≠ "error" := by
  decide

/-- C2 amended: provided each session id receives at most one terminal table
write over the whole run — which holds exactly when no two accepted requests
share a session id, i.e. no same-millisecond start collision — terminal
monotonicity holds: once `get_result` answers a terminal result ("ok" or
"error") for session `tryon_<m>`, its answer after any further steps of the
system (terminal writes of other sessions, output-file writes, polls with
their memoization effect) is the identical result. -/
theorem get_result_terminal_monotonic (tr tr2 : List Step) (m : Nat)
    (hwf : oneTerminalWritePerSession (tr ++ tr2))
    (hterm :
      (TryOnService.get_result (runTrace tr) ("tryon_" ++ Nat.repr m)).1.status
          = "ok" ∨
      (TryOnService.get_result (runTrace tr) ("tryon_" ++ Nat.repr m)).1.status
          = "error") :
    (TryOnService.get_result (runTrace (tr ++ tr2))
        ("tryon_" ++ Nat.repr m)).1 =
      (TryOnService.get_result (runTrace tr) ("tryon_" ++ Nat.repr m)).1 := by
  have hfiles : FilesOK (runTrace tr) :=
    filesOK_applyTrace tr initState filesOK_initState
  have hentry :
      dictGet (runTrace tr).sessionErrors ("tryon_" ++ Nat.repr m) ≠ none ∨
      dictGet (runTrace tr).sessionOutputs ("tryon_" ++ Nat.repr m) ≠ none := by
    by_contra hq
    push_neg at hq
    have hpend := get_result_unknown_session_pending (runTrace tr)
      ("tryon_" ++ Nat.repr m) (tryon_session_id_ne_empty m) hq.1 hq.2
      (filesOK_no_session_file (runTrace tr) hfiles m)
    rcases hterm with ht | ht <;> rw [hpend.1] at ht <;>
      exact absurd ht (by decide)
  obtain ⟨e, he, het⟩ := entries_imply_bgwrite tr m hentry
  have hcount2 : bgWriteCount ("tryon_" ++ Nat.repr m) tr2 = 0 := by
    have h1 := hwf ("tryon_" ++ Nat.repr m)
    rw [bgWriteCount_append] at h1
    have h2 := bgWriteCount_pos_of_mem ("tryon_" ++ Nat.repr m) tr e he het
    omega
  have hnobg := no_bg_in_suffix ("tryon_" ++ Nat.repr m) tr2 hcount2
  obtain ⟨h1, h2, h3⟩ :=
    applyTrace_preserves_session tr2 (runTrace tr) m hfiles hnobg
  have hrun : runTrace (tr ++ tr2) = applyTrace (runTrace tr) tr2 := by
    simp [runTrace, applyTrace, List.foldl_append]
  rw [hrun]
  exact get_result_fst_congr _ _ ("tryon_" ++ Nat.repr m) h1 h2
    (by rw [filesOK_no_session_file _ h3 m, filesOK_no_session_file _ hfiles m])

/-- Witness for C2 amended: one success write for "tryon_5", then a poll of
that session, a foreign session's terminal write and a file write; the poll
answer afterwards is the original terminal "ok" result. -/
theorem get_result_terminal_monotonic_witness :
    (TryOnService.get_result
        (runTrace ([Step.bgOk "tryon_5" "/static/outputs/gen_1.jpg"] ++
          [Step.poll "tryon_5", Step.bgError "tryon_8" "boom", Step.fileGen 99]))
        ("tryon_" ++ Nat.repr 5)).1 =
      (TryOnService.get_result
        (runTrace [Step.bgOk "tryon_5" "/static/outputs/gen_1.jpg"])
        ("tryon_" ++ Nat.repr 5)).1 :=
  get_result_terminal_monotonic
    [Step.bgOk "tryon_5" "/static/outputs/gen_1.jpg"]
    [Step.poll "tryon_5", Step.bgError "tryon_8" "boom", Step.fileGen 99] 5
    (by
      intro sid
      rcases eq_or_ne sid "tryon_5" with h5 | h5
      · subst h5; decide
      · rcases eq_or_ne sid "tryon_8" with h8 | h8
        · subst h8; decide
        · have e5 : (some "tryon_5" == some sid) = false := by
            simp [Ne.symm h5]
          have e8 : (some "tryon_8" == some sid) = false := by
            simp [Ne.symm h8]
          simp [bgWriteCount, List.filter, Step.bgTarget, e5, e8])
    (by decide)
